import Mathlib

/-!
Verification of the PassWorld persistence layer against its specification.

The embedding below follows src/core/database.py and src/core/models.py.
The SQLite file is modelled as a `DbState`: the schema objects created so
far (table and index names, in creation order), the stored rows of the
`passwords` table in rowid scan order, the AUTOINCREMENT counter, the
CURRENT_TIMESTAMP clock, and the number of sqlite3 connections opened and
not yet closed.  Each repository operation takes a `fault : Bool` that is
true when some `sqlite3.Error` is raised while the operation's SQL
executes; the Python code catches every such error at the operation
boundary (the connection context manager has rolled the transaction back)
and converts it into the operation's failure result.

Two facts of the source matter throughout:
* the `CREATE TABLE` statement in `init_db` puts no UNIQUE constraint on
  the `service` column and `idx_service` is created with plain
  `CREATE INDEX`, not `CREATE UNIQUE INDEX`, so a duplicate `service`
  insert does not raise `IntegrityError`;
* `with get_connection() as conn:` uses `sqlite3.Connection` as a context
  manager, which commits or rolls back the transaction on exit but does
  not close the connection, so `conns` only ever grows.
-/

/-- Record model from src/core/models.py: the `PasswordEntry` dataclass.
`created_at` defaults to unset and is populated only from the database. -/
structure PasswordEntry where
  service : String
  username : String
  encrypted_password : List Nat
  created_at : Option Nat := none

deriving instance DecidableEq for PasswordEntry

/-- One stored row of the `passwords` table created by `init_db`:
id INTEGER PRIMARY KEY AUTOINCREMENT, service TEXT NOT NULL,
username TEXT NOT NULL, encrypted_password BLOB NOT NULL,
created_at TIMESTAMP DEFAULT CURRENT_TIMESTAMP. -/
structure Row where
  id : Nat
  service : String
  username : String
  encrypted_password : List Nat
  created_at : Nat

deriving instance DecidableEq for Row

/-- Declaration of one column of the `CREATE TABLE` statement in `init_db`. -/
structure ColumnSpec where
  colName : String
  sqlType : String
  primaryKey : Bool
  notNull : Bool
  uniqueCol : Bool

deriving instance DecidableEq for ColumnSpec

/-- The five columns exactly as `init_db` declares them (database.py
lines 27-35).  No column carries a UNIQUE constraint. -/
def passwordsColumns : List ColumnSpec :=
  [{ colName := "id", sqlType := "INTEGER", primaryKey := true,
     notNull := false, uniqueCol := false },
   { colName := "service", sqlType := "TEXT", primaryKey := false,
     notNull := true, uniqueCol := false },
   { colName := "username", sqlType := "TEXT", primaryKey := false,
     notNull := true, uniqueCol := false },
   { colName := "encrypted_password", sqlType := "BLOB", primaryKey := false,
     notNull := true, uniqueCol := false },
   { colName := "created_at", sqlType := "TIMESTAMP", primaryKey := false,
     notNull := false, uniqueCol := false }]

/-- Declaration of one index created by `init_db`. -/
structure IndexSpec where
  idxName : String
  onColumn : String
  uniqueIdx : Bool

deriving instance DecidableEq for IndexSpec

/-- The two indexes of `init_db` (database.py lines 36-37): both are plain
`CREATE INDEX`, neither is `CREATE UNIQUE INDEX`. -/
def schemaIndexes : List IndexSpec :=
  [{ idxName := "idx_service", onColumn := "service", uniqueIdx := false },
   { idxName := "idx_username", onColumn := "username", uniqueIdx := false }]

/-- State of the vault file.  `rows` is in rowid order: INSERT appends,
SELECT without ORDER BY scans in this order.  `conns` counts sqlite3
connections opened by `get_connection` and not yet closed. -/
structure DbState where
  schemaObjects : List String
  rows : List Row
  nextId : Nat
  now : Nat
  conns : Nat

deriving instance DecidableEq for DbState

/-- Semantics of `CREATE ... IF NOT EXISTS`: a no-op when the named schema
object already exists, otherwise the object is added. -/
def createIfNotExists (name : String) (objs : List String) : List String :=
  if name ∈ objs then objs else objs ++ [name]

/-- init_db (database.py lines 23-41): opens a connection and executes
CREATE TABLE IF NOT EXISTS passwords, CREATE INDEX IF NOT EXISTS
idx_service, CREATE INDEX IF NOT EXISTS idx_username.  Stored rows are
never touched; the connection stays open (the context manager only ends
the transaction). -/
def init_db (σ : DbState) : DbState :=
  { σ with
    conns := σ.conns + 1,
    schemaObjects :=
      createIfNotExists "idx_username"
        (createIfNotExists "idx_service"
          (createIfNotExists "passwords" σ.schemaObjects)) }

/-- Conversion of a fetched row to a `PasswordEntry`, as done by every
SELECT handler in database.py: the three payload fields are copied
byte-for-byte and `created_at` is populated from the stored timestamp
(`datetime.fromisoformat` of the CURRENT_TIMESTAMP text). -/
def rowToEntry (r : Row) : PasswordEntry :=
  { service := r.service, username := r.username,
    encrypted_password := r.encrypted_password,
    created_at := some r.created_at }

/-- create_password (database.py lines 44-63).  On the success path the
INSERT appends one row whose `created_at` is the CURRENT_TIMESTAMP
default and whose id is the AUTOINCREMENT value, and `cursor.rowcount`
is 1, so `rowcount > 0` yields true.  Any `sqlite3.Error` (the
`IntegrityError` branch included) is caught and reported as false with
the transaction rolled back.  Since the schema puts no UNIQUE constraint
on `service` (see `passwordsColumns` and `schemaIndexes`), inserting a
`service` that already exists raises nothing and succeeds. -/
def create_password (entry : PasswordEntry) (fault : Bool) (σ : DbState) :
    Bool × DbState :=
  if fault then
    (false, { σ with conns := σ.conns + 1 })
  else
    let newRow : Row :=
      { id := σ.nextId, service := entry.service, username := entry.username,
        encrypted_password := entry.encrypted_password, created_at := σ.now }
    (true, { σ with
             conns := σ.conns + 1,
             rows := σ.rows ++ [newRow],
             nextId := σ.nextId + 1 })

/-- read_all_passwords (database.py lines 65-82): SELECT of every row in
scan order, mapped to entries; any `sqlite3.Error` yields the empty
list.  The SELECT mutates no row. -/
def read_all_passwords (fault : Bool) (σ : DbState) :
    List PasswordEntry × DbState :=
  if fault then ([], { σ with conns := σ.conns + 1 })
  else (σ.rows.map rowToEntry, { σ with conns := σ.conns + 1 })

/-- read_password_by_service (database.py lines 84-107): SELECT ... WHERE
service = ? followed by `fetchone`, hence the first matching row in scan
order; no match, or any `sqlite3.Error`, yields `none`. -/
def read_password_by_service (service : String) (fault : Bool) (σ : DbState) :
    Option PasswordEntry × DbState :=
  if fault then (none, { σ with conns := σ.conns + 1 })
  else ((σ.rows.find? (fun r => r.service == service)).map rowToEntry,
        { σ with conns := σ.conns + 1 })

/-- read_password_by_username (database.py lines 109-132): same contract
as `read_password_by_service` but matching the `username` column. -/
def read_password_by_username (username : String) (fault : Bool) (σ : DbState) :
    Option PasswordEntry × DbState :=
  if fault then (none, { σ with conns := σ.conns + 1 })
  else ((σ.rows.find? (fun r => r.username == username)).map rowToEntry,
        { σ with conns := σ.conns + 1 })

/-- Effect of the UPDATE's SET clause on one matched row: `service`,
`username`, `encrypted_password` are overwritten; `id` and `created_at`
are not in the SET list and stay as they are. -/
def updateRow (ne : PasswordEntry) (r : Row) : Row :=
  { r with
    service := ne.service,
    username := ne.username,
    encrypted_password := ne.encrypted_password }

/-- update_password (database.py lines 134-158): UPDATE passwords SET
service, username, encrypted_password WHERE service = ?, touching every
row whose `service` matches; `cursor.rowcount` is the number of matched
rows and success is `rowcount > 0`.  Any `sqlite3.Error` is caught and
reported as false with the transaction rolled back. -/
def update_password (service : String) (new_entry : PasswordEntry)
    (fault : Bool) (σ : DbState) : Bool × DbState :=
  if fault then (false, { σ with conns := σ.conns + 1 })
  else
    (decide (0 < σ.rows.countP (fun r => r.service == service)),
     { σ with
       conns := σ.conns + 1,
       rows := σ.rows.map (fun r =>
         if r.service == service then updateRow new_entry r else r) })

/-- delete_password (database.py lines 160-177): DELETE FROM passwords
WHERE service = ?, removing every matching row; `cursor.rowcount` is the
number of removed rows and success is `rowcount > 0`.  Any
`sqlite3.Error` is caught and reported as false with the transaction
rolled back. -/
def delete_password (service : String) (fault : Bool) (σ : DbState) :
    Bool × DbState :=
  if fault then (false, { σ with conns := σ.conns + 1 })
  else
    (decide (0 < σ.rows.countP (fun r => r.service == service)),
     { σ with
       conns := σ.conns + 1,
       rows := σ.rows.filter (fun r => !(r.service == service)) })

/-- A fresh vault file before any schema object exists. -/
def emptyState : DbState :=
  { schemaObjects := [], rows := [], nextId := 1, now := 100, conns := 0 }

/-- Concrete entry used by witnesses, from the end-to-end scenario of the
spec. -/
def entryGithub : PasswordEntry :=
  { service := "github", username := "alice", encrypted_password := [1, 2] }

/-- A second entry for the same service, different user. -/
def entryGithubBob : PasswordEntry :=
  { service := "github", username := "bob", encrypted_password := [9] }

/-- Entry used to exercise update in witnesses. -/
def entryGithubNew : PasswordEntry :=
  { service := "github-new", username := "alice2", encrypted_password := [3] }

/-- State holding exactly one row, for service "github". -/
def stateGit : DbState :=
  (create_password entryGithub false (init_db emptyState)).2

/-- The row stored in `stateGit`. -/
def rowGithub : Row :=
  { id := 1, service := "github", username := "alice",
    encrypted_password := [1, 2], created_at := 100 }

theorem list_find?_append_of_none {α : Type} (p : α → Bool)
    (l₁ l₂ : List α) (h : ∀ x ∈ l₁, p x = false) :
    (l₁ ++ l₂).find? p = l₂.find? p := by
  induction l₁ with
  | nil => rfl
  | cons a t ih =>
    have ha : p a = false := h a (List.mem_cons_self a t)
    simp only [List.cons_append, List.find?, ha]
    exact ih (fun x hx => h x (List.mem_cons_of_mem a hx))

theorem list_find?_of_filter_eq_singleton {α : Type} (p : α → Bool)
    (l : List α) (r : α) (h : l.filter p = [r]) : l.find? p = some r := by
  induction l with
  | nil => simp at h
  | cons a t ih =>
    cases hpa : p a
    · rw [List.filter_cons_of_neg (by simp [hpa])] at h
      simp only [List.find?, hpa]
      exact ih h
    · rw [List.filter_cons_of_pos (by simp [hpa])] at h
      obtain ⟨rfl, -⟩ := List.cons_eq_cons.mp h
      simp [List.find?, hpa]

theorem list_find?_eq_none_of_all_false {α : Type} (p : α → Bool)
    (l : List α) (h : ∀ x ∈ l, p x = false) : l.find? p = none := by
  induction l with
  | nil => rfl
  | cons a t ih =>
    have ha : p a = false := h a (List.mem_cons_self a t)
    simp only [List.find?, ha]
    exact ih (fun x hx => h x (List.mem_cons_of_mem a hx))

theorem list_find?_filter_not {α : Type} (p : α → Bool) (l : List α) :
    (l.filter (fun x => !(p x))).find? p = none := by
  refine list_find?_eq_none_of_all_false p _ (fun x hx => ?_)
  have hmem := List.mem_filter.mp hx
  simpa using hmem.2

theorem all_false_of_countP_zero {α : Type} (p : α → Bool)
    (l : List α) (h : l.countP p = 0) : ∀ x ∈ l, p x = false := by
  induction l with
  | nil => intro x hx; simp at hx
  | cons a t ih =>
    rw [List.countP_cons] at h
    have hpa : p a = false := by
      cases hpa : p a
      · rfl
      · rw [hpa] at h
        simp at h
    have ht : t.countP p = 0 := by
      rw [hpa] at h
      simpa using h
    intro x hx
    rcases List.mem_cons.mp hx with rfl | hxt
    · exact hpa
    · exact ih ht x hxt

theorem list_map_if_id_of_all_false {α : Type} (p : α → Bool) (f : α → α)
    (l : List α) (h : ∀ x ∈ l, p x = false) :
    l.map (fun x => if p x then f x else x) = l := by
  induction l with
  | nil => rfl
  | cons a t ih =>
    have ha : p a = false := h a (List.mem_cons_self a t)
    simp [ha, ih (fun x hx => h x (List.mem_cons_of_mem a hx))]

theorem list_filter_not_of_all_false {α : Type} (p : α → Bool)
    (l : List α) (h : ∀ x ∈ l, p x = false) :
    l.filter (fun x => !(p x)) = l := by
  induction l with
  | nil => rfl
  | cons a t ih =>
    have ha : p a = false := h a (List.mem_cons_self a t)
    rw [List.filter_cons_of_pos (by simp [ha])]
    rw [ih (fun x hx => h x (List.mem_cons_of_mem a hx))]

theorem list_find?_map_of_pointwise {α : Type} (g : α → α) (p q : α → Bool)
    (l : List α) (h : ∀ x ∈ l, q (g x) = p x) :
    (l.map g).find? q = (l.find? p).map g := by
  induction l with
  | nil => rfl
  | cons a t ih =>
    have ha : q (g a) = p a := h a (List.mem_cons_self a t)
    by_cases hp : p a = true
    · simp [List.find?, ha, hp]
    · have hp' : p a = false := by simpa using hp
      simp only [List.map_cons, List.find?, ha, hp']
      exact ih (fun x hx => h x (List.mem_cons_of_mem a hx))

theorem countP_pos_of_filter_eq_singleton {α : Type} (p : α → Bool)
    (l : List α) (r : α) (h : l.filter p = [r]) : 0 < l.countP p := by
  rw [List.countP_eq_length_filter, h]
  simp

theorem map_created_at_update (p : Row → Bool)
    (ne : PasswordEntry) (l : List Row) :
    (l.map (fun r => if p r then updateRow ne r else r)).map Row.created_at =
      l.map Row.created_at := by
  induction l with
  | nil => rfl
  | cons a t ih =>
    simp only [List.map_cons, ih]
    cases hpa : p a
    · simp
    · simp [updateRow]

theorem mem_createIfNotExists_self (a : String) (l : List String) :
    a ∈ createIfNotExists a l := by
  unfold createIfNotExists
  by_cases h : a ∈ l
  · simp [h]
  · simp [h]

theorem mem_createIfNotExists_of_mem (a b : String) (l : List String)
    (h : b ∈ l) : b ∈ createIfNotExists a l := by
  unfold createIfNotExists
  by_cases ha : a ∈ l
  · simpa [ha]
  · simp [ha, h]

theorem createIfNotExists_of_mem (a : String) (l : List String)
    (h : a ∈ l) : createIfNotExists a l = l := by
  simp [createIfNotExists, h]

theorem nodup_createIfNotExists (a : String) (l : List String)
    (h : l.Nodup) : (createIfNotExists a l).Nodup := by
  unfold createIfNotExists
  by_cases ha : a ∈ l
  · simpa [ha]
  · simp only [ha, if_false]
    rw [List.nodup_append]
    refine ⟨h, List.nodup_singleton a, ?_⟩
    intro x hx hxa
    rw [List.mem_singleton] at hxa
    exact ha (hxa ▸ hx)

/-- C1: the claim fails on the code.  The table created by `init_db` puts
no UNIQUE constraint on the `service` column and `idx_service` is a
plain, non-unique index, so uniqueness of `service` is not enforced by
the schema: starting from a freshly initialized vault, two successive
`create_password` calls for service "github" both succeed and the
reachable state holds two rows with that service. -/
theorem c1_service_uniqueness_not_enforced :
    passwordsColumns.all (fun c => !c.uniqueCol) = true ∧
    schemaIndexes.all (fun i => !i.uniqueIdx) = true ∧
    (create_password entryGithub false (init_db emptyState)).1 = true ∧
    (create_password entryGithubBob false stateGit).1 = true ∧
    (create_password entryGithubBob false stateGit).2.rows.countP
      (fun r => r.service == "github") = 2 := by
  decide

/-- C2: the claim fails on the code.  With a "github" row already stored,
`create_password` of a second entry for service "github" is not rejected:
the schema raises no IntegrityError for a duplicate service, so the call
returns true and appends a second row; the pre-existing row itself is
left unchanged at the head of the table. -/
theorem c2_duplicate_create_returns_true :
    (create_password entryGithubBob false stateGit).1 = true ∧
    (create_password entryGithubBob false stateGit).2.rows.length = 2 ∧
    (create_password entryGithubBob false stateGit).2.rows.head? =
      some rowGithub := by
  decide

/-- C3: round-trip: in any state with no row for the entry's service and
no storage fault, `create_password` succeeds and a subsequent
`read_password_by_service` returns the created service, username and
encrypted secret byte-for-byte, with `created_at` populated from the
insertion-time clock. -/
theorem c3_create_then_read_roundtrip (σ : DbState) (e : PasswordEntry)
    (h : ∀ r ∈ σ.rows, (r.service == e.service) = false) :
    (create_password e false σ).1 = true ∧
    (read_password_by_service e.service false
      (create_password e false σ).2).1 =
      some { service := e.service, username := e.username,
             encrypted_password := e.encrypted_password,
             created_at := some σ.now } := by
  constructor
  · rfl
  · have happ := list_find?_append_of_none (fun r => r.service == e.service)
      σ.rows
      [{ id := σ.nextId, service := e.service, username := e.username,
         encrypted_password := e.encrypted_password, created_at := σ.now }] h
    simp [create_password, read_password_by_service, happ, List.find?,
      rowToEntry]

/-- Witness for C3: the round-trip at the scenario's first step. -/
theorem c3_create_then_read_roundtrip_witness :
    (create_password entryGithub false (init_db emptyState)).1 = true ∧
    (read_password_by_service entryGithub.service false
      (create_password entryGithub false (init_db emptyState)).2).1 =
      some { service := entryGithub.service, username := entryGithub.username,
             encrypted_password := entryGithub.encrypted_password,
             created_at := some (init_db emptyState).now } :=
  c3_create_then_read_roundtrip (init_db emptyState) entryGithub (by decide)

/-- C4: update with a unique old-service match: if exactly one stored row
carries service s and any row carrying the new service is that same row,
then `update_password` succeeds, the `created_at` column of every stored
row is unchanged, and reading the new service back yields the new
username and encrypted secret together with the original row's
`created_at`. -/
theorem c4_update_preserves_created_at (σ : DbState) (s : String)
    (ne : PasswordEntry) (r : Row)
    (h1 : σ.rows.filter (fun x => x.service == s) = [r])
    (h2 : ∀ x ∈ σ.rows, (x.service == ne.service) = true →
      (x.service == s) = true) :
    (update_password s ne false σ).1 = true ∧
    (update_password s ne false σ).2.rows.map Row.created_at =
      σ.rows.map Row.created_at ∧
    (read_password_by_service ne.service false
      (update_password s ne false σ).2).1 =
      some { service := ne.service, username := ne.username,
             encrypted_password := ne.encrypted_password,
             created_at := some r.created_at } := by
  have hpos := countP_pos_of_filter_eq_singleton
    (fun x => x.service == s) σ.rows r h1
  have hpoint : ∀ x ∈ σ.rows,
      ((if x.service == s then updateRow ne x else x).service ==
        ne.service) = (x.service == s) := by
    intro x hx
    cases hxs : (x.service == s)
    · simp only [hxs, Bool.false_eq_true, if_false]
      cases hq : (x.service == ne.service)
      · rfl
      · exact absurd (h2 x hx hq) (by simp [hxs])
    · simp [hxs, updateRow]
  refine ⟨?_, ?_, ?_⟩
  · simp [update_password, hpos]
  · simp only [update_password, Bool.false_eq_true, if_false]
    exact map_created_at_update (fun x => x.service == s) ne σ.rows
  · have hrp : (r.service == s) = true := by
      have hr : r ∈ σ.rows.filter (fun x => x.service == s) := by
        rw [h1]
        exact List.mem_singleton_self r
      simpa using (List.mem_filter.mp hr).2
    have hfind1 := list_find?_of_filter_eq_singleton
      (fun x => x.service == s) σ.rows r h1
    have hfind := list_find?_map_of_pointwise
      (fun x => if x.service == s then updateRow ne x else x)
      (fun x => x.service == s) (fun y => y.service == ne.service)
      σ.rows hpoint
    rw [hfind1] at hfind
    show ((σ.rows.map
        (fun x => if x.service == s then updateRow ne x else x)).find?
        (fun y => y.service == ne.service)).map rowToEntry =
      some { service := ne.service, username := ne.username,
             encrypted_password := ne.encrypted_password,
             created_at := some r.created_at }
    rw [hfind]
    have hrp2 : r.service = s := by simpa using hrp
    simp [hrp2, updateRow, rowToEntry]

/-- Witness for C4 at the one-row vault. -/
theorem c4_update_preserves_created_at_witness :
    (update_password "github" entryGithubNew false stateGit).1 = true ∧
    (update_password "github" entryGithubNew false stateGit).2.rows.map
      Row.created_at = stateGit.rows.map Row.created_at ∧
    (read_password_by_service entryGithubNew.service false
      (update_password "github" entryGithubNew false stateGit).2).1 =
      some { service := entryGithubNew.service,
             username := entryGithubNew.username,
             encrypted_password := entryGithubNew.encrypted_password,
             created_at := some rowGithub.created_at } :=
  c4_update_preserves_created_at stateGit "github" entryGithubNew rowGithub
    (by decide) (by decide)

/-- C5: delete contract: without a fault, `delete_password` returns true
exactly when some row with that service exists (and removes every such
row); after a successful delete, `read_password_by_service` on that
service returns none; under a storage fault delete returns false, no
exception escaping. -/
theorem c5_delete_then_read (σ : DbState) (s : String) :
    ((delete_password s false σ).1 = true ↔
      0 < σ.rows.countP (fun r => r.service == s)) ∧
    ((delete_password s false σ).1 = true →
      (read_password_by_service s false (delete_password s false σ).2).1 =
        none) ∧
    (delete_password s true σ).1 = false := by
  refine ⟨?_, ?_, rfl⟩
  · simp [delete_password]
  · intro _
    have hfind := list_find?_filter_not (fun r => r.service == s) σ.rows
    simp [read_password_by_service, delete_password, hfind]

/-- Witness for C5 at the one-row vault. -/
theorem c5_delete_then_read_witness :
    (delete_password "github" false stateGit).1 = true ∧
    (read_password_by_service "github" false
      (delete_password "github" false stateGit).2).1 = none ∧
    (delete_password "github" true stateGit).1 = false := by
  have h := c5_delete_then_read stateGit "github"
  exact ⟨h.1.mpr (by decide), h.2.1 (h.1.mpr (by decide)), h.2.2⟩

/-- C6: no storage failure escapes the repository boundary: under any
fault every mutator returns false in its Boolean result and every read
returns its empty result (none, or the empty list); `read_all_passwords`
also returns the empty list on zero records and
`read_password_by_service` returns none when no row matches, so absence
and failure are indistinguishable from the returned value. -/
theorem c6_fault_mapped_to_result_types :
    (∀ e σ, (create_password e true σ).1 = false) ∧
    (∀ s e σ, (update_password s e true σ).1 = false) ∧
    (∀ s σ, (delete_password s true σ).1 = false) ∧
    (∀ s σ, (read_password_by_service s true σ).1 = none) ∧
    (∀ u σ, (read_password_by_username u true σ).1 = none) ∧
    (∀ σ, (read_all_passwords true σ).1 = []) ∧
    (∀ σ, σ.rows = [] → (read_all_passwords false σ).1 = []) ∧
    (∀ s σ, (∀ r ∈ σ.rows, (r.service == s) = false) →
      (read_password_by_service s false σ).1 = none) := by
  refine ⟨fun e σ => rfl, fun s e σ => rfl, fun s σ => rfl, fun s σ => rfl,
    fun u σ => rfl, fun σ => rfl, fun σ h => ?_, fun s σ h => ?_⟩
  · simp [read_all_passwords, h]
  · simp [read_password_by_service,
      list_find?_eq_none_of_all_false (fun r => r.service == s) σ.rows h]

/-- Witness for C6 at concrete inputs. -/
theorem c6_fault_mapped_to_result_types_witness :
    (create_password entryGithub true emptyState).1 = false ∧
    (read_all_passwords false emptyState).1 = [] ∧
    (read_password_by_service "github" false emptyState).1 = none :=
  ⟨c6_fault_mapped_to_result_types.1 entryGithub emptyState,
   c6_fault_mapped_to_result_types.2.2.2.2.2.2.1 emptyState rfl,
   c6_fault_mapped_to_result_types.2.2.2.2.2.2.2 "github" emptyState
     (by decide)⟩

/-- C7: failed mutators are atomic: whenever `create_password`,
`update_password` or `delete_password` returns false — storage fault, or
no matching row for update and delete — the stored rows after the call
equal the stored rows before it. -/
theorem c7_failed_mutators_preserve_rows (σ : DbState) (e : PasswordEntry)
    (s : String) (fault : Bool) :
    ((create_password e fault σ).1 = false →
      (create_password e fault σ).2.rows = σ.rows) ∧
    ((update_password s e fault σ).1 = false →
      (update_password s e fault σ).2.rows = σ.rows) ∧
    ((delete_password s fault σ).1 = false →
      (delete_password s fault σ).2.rows = σ.rows) := by
  cases fault
  · refine ⟨fun h => ?_, fun h => ?_, fun h => ?_⟩
    · exact absurd h (by simp [create_password])
    · have hall : ∀ x ∈ σ.rows, ¬ x.service = s := by
        simpa [update_password] using h
      simp only [update_password, Bool.false_eq_true, if_false]
      exact list_map_if_id_of_all_false (fun r => r.service == s)
        (updateRow e) σ.rows (fun x hx => by simpa using hall x hx)
    · have hall : ∀ x ∈ σ.rows, ¬ x.service = s := by
        simpa [delete_password] using h
      simp only [delete_password, Bool.false_eq_true, if_false]
      exact list_filter_not_of_all_false (fun r => r.service == s) σ.rows
        (fun x hx => by simpa using hall x hx)
  · exact ⟨fun _ => rfl, fun _ => rfl, fun _ => rfl⟩

/-- Witness for C7: a failed update on the empty vault preserves rows. -/
theorem c7_failed_mutators_preserve_rows_witness :
    (update_password "github" entryGithub false emptyState).2.rows =
      emptyState.rows :=
  (c7_failed_mutators_preserve_rows emptyState entryGithub "github"
    false).2.1 (by decide)

/-- C8: schema setup is idempotent: a second `init_db` adds no schema
object (in particular no duplicate table or index and no error is
possible, every statement being IF NOT EXISTS), `init_db` never touches
the stored rows, and it preserves absence of duplicates among schema
objects. -/
theorem c8_init_db_idempotent (σ : DbState) :
    (init_db (init_db σ)).schemaObjects = (init_db σ).schemaObjects ∧
    (init_db σ).rows = σ.rows ∧
    (init_db (init_db σ)).rows = σ.rows ∧
    (σ.schemaObjects.Nodup → (init_db σ).schemaObjects.Nodup) := by
  refine ⟨?_, rfl, rfl, ?_⟩
  · have hp : "passwords" ∈ (init_db σ).schemaObjects :=
      mem_createIfNotExists_of_mem _ _ _
        (mem_createIfNotExists_of_mem _ _ _
          (mem_createIfNotExists_self _ _))
    have hs : "idx_service" ∈ (init_db σ).schemaObjects :=
      mem_createIfNotExists_of_mem _ _ _ (mem_createIfNotExists_self _ _)
    have hu : "idx_username" ∈ (init_db σ).schemaObjects :=
      mem_createIfNotExists_self _ _
    show createIfNotExists "idx_username"
        (createIfNotExists "idx_service"
          (createIfNotExists "passwords" (init_db σ).schemaObjects)) =
      (init_db σ).schemaObjects
    rw [createIfNotExists_of_mem _ _ hp, createIfNotExists_of_mem _ _ hs,
      createIfNotExists_of_mem _ _ hu]
  · intro h
    exact nodup_createIfNotExists _ _ (nodup_createIfNotExists _ _
      (nodup_createIfNotExists _ _ h))

/-- Witness for C8 at the fresh vault. -/
theorem c8_init_db_idempotent_witness :
    (init_db (init_db emptyState)).schemaObjects =
      (init_db emptyState).schemaObjects ∧
    (init_db emptyState).schemaObjects.Nodup := by
  have h := c8_init_db_idempotent emptyState
  exact ⟨h.1, h.2.2.2 (by decide)⟩

/-- C9: counterexample to the claim as stated.  `with get_connection()
as conn:` ends the transaction when the block exits but does not close
the connection (the sqlite3 connection context manager manages only the
transaction), so after a successful `create_password` the count of open
connections has grown: a connection survives past the operation's
boundary. -/
theorem c9_counterexample_connection_survives :
    (create_password entryGithub false emptyState).2.conns ≠
      emptyState.conns := by
  decide

/-- C9 (amended): every CRUD operation acquires exactly one connection
and, on every exit path — success or storage fault — ends its
transaction but leaves that connection open: the open-connection count
grows by exactly one per operation instead of returning to its prior
value. -/
theorem c9_amended_each_op_leaves_connection_open (σ : DbState)
    (e : PasswordEntry) (s u : String) (fault : Bool) :
    (create_password e fault σ).2.conns = σ.conns + 1 ∧
    (read_all_passwords fault σ).2.conns = σ.conns + 1 ∧
    (read_password_by_service s fault σ).2.conns = σ.conns + 1 ∧
    (read_password_by_username u fault σ).2.conns = σ.conns + 1 ∧
    (update_password s e fault σ).2.conns = σ.conns + 1 ∧
    (delete_password s fault σ).2.conns = σ.conns + 1 := by
  cases fault <;>
    simp [create_password, read_all_passwords, read_password_by_service,
      read_password_by_username, update_password, delete_password]

/-- C10: the three read operations are pure with respect to the stored
rows: for every state, argument and fault outcome they leave the row
list — hence every row's `created_at` — exactly as it was before the
call. -/
theorem c10_reads_leave_rows_unchanged (σ : DbState) (s u : String)
    (fault : Bool) :
    (read_all_passwords fault σ).2.rows = σ.rows ∧
    (read_password_by_service s fault σ).2.rows = σ.rows ∧
    (read_password_by_username u fault σ).2.rows = σ.rows := by
  cases fault <;>
    simp [read_all_passwords, read_password_by_service,
      read_password_by_username]
